import Mathlib

/-!
# Verification of the hattip `adapter-uwebsockets` bridge (`src/common.ts`)

Shallow embedding of the adapter in Lean 4.  The embedding follows the
TypeScript source of `packages/adapter/adapter-uwebsockets/src/common.ts`:

* JavaScript falsy string coercion (`undefined`, `null`, `false`, `""` in a
  `||` chain) is modelled by using `""` as the falsy value and `jsOr` as `||`.
* The Fetch `Headers` object is modelled as a list of (lower-cased name,
  value) pairs; `Headers.get` joins repeated values with `", "` and returns
  `null` (here `""`) for an absent name; `Headers.getSetCookie` returns the
  raw list of `set-cookie` values.  Iteration order of distinct keys is
  immaterial to every property below.
* Native uWebSockets calls (`writeStatus`, `writeHeader`, `write`,
  `end(chunk)`, `end()`) are recorded as a trace of `NativeCall` values.
* The response-body streaming loop of `finish` is embedded twice, matching
  the source exactly in both views: as a pure trace function `bodyCalls`
  over the chunk list, and as a step machine `writerStep` over an event
  list in which the native abort callback may fire between chunk arrivals
  (the callback sets the `aborted` flag; the loop body never reads it,
  exactly as in the source).
-/

/-- A body chunk: the bytes of one `Uint8Array`. -/
abbrev Chunk := List Nat

/-- One native uWebSockets.js call issued on the `HttpResponse`. -/
inductive NativeCall where
  | writeStatus (line : String)
  | writeHeader (name value : String)
  /-- `res.write(chunk)`: a non-final body write. -/
  | write (chunk : Chunk)
  /-- `res.end(chunk)`: the final body write, also signals completion. -/
  | endWith (chunk : Chunk)
  /-- `res.end()`: completion signal with no data. -/
  | endResponse
  deriving DecidableEq, Repr

/-- Header multimap: (lower-cased name, value) pairs in insertion order. -/
abbrev HeaderList := List (String × String)

/-- JavaScript `a || b` on the falsy-as-`""` encoding of strings. -/
def jsOr (a b : String) : String := if a = "" then b else a

/-- All values stored under `name` (in order). -/
def valuesOf (hs : HeaderList) (name : String) : List String :=
  (hs.filter (fun p => p.1 = name)).map Prod.snd

/-- Fetch `Headers.get`: `", "`-join of the values, `""` for `null`. -/
def jsGet (hs : HeaderList) (name : String) : String :=
  match valuesOf hs name with
  | [] => ""
  | vs => String.intercalate ", " vs

/-- Fetch `Headers.getSetCookie`: the individual `set-cookie` values. -/
def getSetCookie (hs : HeaderList) : List String := valuesOf hs "set-cookie"

/-- `new Set(response.headers.keys())`: each header name once. -/
def uniqueHeaderNames (hs : HeaderList) : List String := (hs.map Prod.fst).dedup

/-- JavaScript `String.prototype.trim`: strip whitespace from both ends
(written on the character list so that it reduces inside the kernel). -/
def jsTrim (s : String) : String :=
  ⟨((s.data.dropWhile Char.isWhitespace).reverse.dropWhile
      Char.isWhitespace).reverse⟩

/-- `getForwardedHeader` from the source:
`(headers.get("x-forwarded-" + name) || "").split(",", 1)[0].trim()`.
JavaScript `s.split(",", 1)[0]` is the prefix of `s` before the first
comma (the whole of `s` when it has none), written here as a character
`takeWhile` so that it reduces inside the kernel. -/
def getForwardedHeader (hs : HeaderList) (name : String) : String :=
  jsTrim ⟨(jsGet hs ("x-forwarded-" ++ name)).data.takeWhile (fun c => c ≠ ',')⟩

/-! ## Origin resolution

`createServer` destructures `let { protocol, host }` from the configured
origin (or leaves them `undefined`) in the *server* scope, and the
per-request callback assigns the resolved values back into those same two
closure variables.  `OriginState` is that pair of closure variables
(`""` standing for `undefined`), and `serveOrigin` is one execution of the
resolution code for one request, returning the resolved (protocol, host)
together with the updated closure state. -/

/-- The `protocol`/`host` closure variables of `createServer`. -/
structure OriginState where
  protocol : String
  host : String
  deriving DecidableEq, Repr

/-- One request's origin resolution, from the source:

```
protocol = protocol || (trustProxy && getForwardedHeader("proto"))
  || (ssl && "https") || "http";
host = host || (trustProxy && getForwardedHeader("host"))
  || headers.get("host") || ipAddress;
if (!host) { host = "localhost"; }
```

Both assignments write back into the closure variables, which is why the
updated `OriginState` is returned alongside the resolved pair. -/
def serveOrigin (trustProxy ssl : Bool) (st : OriginState)
    (headers : HeaderList) (ipAddress : String) :
    (String × String) × OriginState :=
  let protocol :=
    jsOr st.protocol
      (jsOr (if trustProxy then getForwardedHeader headers "proto" else "")
        (jsOr (if ssl then "https" else "") "http"))
  let host0 :=
    jsOr st.host
      (jsOr (if trustProxy then getForwardedHeader headers "host" else "")
        (jsOr (jsGet headers "host") ipAddress))
  let host := if host0 = "" then "localhost" else host0
  ((protocol, host), ⟨protocol, host⟩)

/-! ## Response writer -/

/-- A canonical response handed to `finish`.  `body = none` models a `null`
body; `body = some chunks` models a body stream yielding those chunks. -/
structure ResponseV where
  status : Nat
  statusText : String
  headers : HeaderList
  body : Option (List Chunk)

/-- The status line: `` `${response.status}${response.statusText ? " " +
response.statusText : ""}` ``. -/
def statusLine (r : ResponseV) : String :=
  toString r.status ++ (if r.statusText = "" then "" else " " ++ r.statusText)

/-- Header lines emitted for one name, from the source: `set-cookie` gets
one `writeHeader` per value of `getSetCookie()`, every other name gets a
single `writeHeader` with the combined `headers.get(name)` value. -/
def emitFor (hs : HeaderList) (name : String) : List NativeCall :=
  if name = "set-cookie" then
    (getSetCookie hs).map (fun v => NativeCall.writeHeader name v)
  else
    [NativeCall.writeHeader name (jsGet hs name)]

/-- The header name a call carries (`""` for non-header calls). -/
def headerNameOf : NativeCall → String
  | .writeHeader n _ => n
  | _ => ""

/-- The header-emission loop of `finish` over `uniqueHeaderNames`. -/
def emitHeaders (hs : HeaderList) : List NativeCall :=
  (uniqueHeaderNames hs).flatMap (emitFor hs)

/-! ### The body-streaming loop as an event machine

Events seen while `for await`-ing the body: either a chunk arrives or the
native abort callback fires.  The callback does `aborted = true` and
nothing else; the loop body writes the previously held chunk without
consulting `aborted`, exactly as in the source. -/

/-- An event during body streaming. -/
inductive StreamEvent where
  | chunk (c : Chunk)
  | abortSignal
  deriving DecidableEq, Repr

/-- State of the streaming loop: the `aborted` flag, the held-back
`lastChunk`, and the trace of native calls issued so far. -/
structure WriterState where
  aborted : Bool
  lastChunk : Option Chunk
  calls : List NativeCall
  deriving Repr

def initWriter : WriterState := ⟨false, none, []⟩

/-- One event step.  `abortSignal` is `res.onAborted(() => (aborted =
true))`; a chunk arrival is one iteration of the `for await` loop, which
flushes the held chunk (if any) as a non-final `res.write`. -/
def writerStep (s : WriterState) : StreamEvent → WriterState
  | .abortSignal => { s with aborted := true }
  | .chunk c =>
    match s.lastChunk with
    | none => { s with lastChunk := some c }
    | some p => { aborted := s.aborted, lastChunk := some c,
                  calls := s.calls ++ [NativeCall.write p] }

/-- End of the stream: `if (lastChunk) { res.end(lastChunk) }`. -/
def writerEnd (s : WriterState) : WriterState :=
  match s.lastChunk with
  | none => s
  | some c => { s with calls := s.calls ++ [NativeCall.endWith c] }

/-- Run the streaming loop over an event list. -/
def runWriter (evs : List StreamEvent) : WriterState :=
  writerEnd (evs.foldl writerStep initWriter)

/-- The chunks carried by an event list, in order. -/
def chunksOf : List StreamEvent → List Chunk
  | [] => []
  | .chunk c :: r => c :: chunksOf r
  | .abortSignal :: r => chunksOf r

/-- Native body calls for a chunk list (the abort-free trace). -/
def bodyCalls (chunks : List Chunk) : List NativeCall :=
  (runWriter (chunks.map StreamEvent.chunk)).calls

/-- `finish(response)` from the source, as the trace of native calls, with
the `aborted` flag as sampled by its entry check `if (aborted) return`.
Inside the cork: the status line, the header lines, and — only when the
body is `null` — `res.end()`.  When a body stream is present its chunks
are then streamed by the held-back-chunk loop (`bodyCalls`). -/
def finish (aborted : Bool) (r : ResponseV) : List NativeCall :=
  if aborted then []
  else
    (NativeCall.writeStatus (statusLine r) :: emitHeaders r.headers
      ++ (match r.body with
          | none => [NativeCall.endResponse]
          | some _ => []))
    ++ (match r.body with
        | none => []
        | some chunks => bodyCalls chunks)

/-- `handleError` from the source: if `aborted`, return (the error is only
logged); otherwise write the generic status line and `res.end()` with no
body data. -/
def handleError (aborted : Bool) : List NativeCall :=
  if aborted then []
  else [NativeCall.writeStatus "500 Internal Server Error",
        NativeCall.endResponse]

/-- Outcome of invoking the application handler. -/
inductive HandlerOutcome where
  | ok (r : ResponseV)
  /-- the handler threw synchronously (`catch (error)` branch). -/
  | threwSync
  /-- the handler returned a promise that rejected (`.catch(handleError)`). -/
  | rejected

/-- The dispatch tail of the request callback: a successful result goes to
`finish`, a synchronous throw or an asynchronous rejection goes to
`handleError`. -/
def dispatch (aborted : Bool) : HandlerOutcome → List NativeCall
  | .ok r => finish aborted r
  | .threwSync => handleError aborted
  | .rejected => handleError aborted

/-- Is the call a completion signal (`res.end` in either form)? -/
def isEndCall : NativeCall → Bool
  | .endWith _ => true
  | .endResponse => true
  | _ => false

/-- Is the call a non-final body write (`res.write`)? -/
def isWriteCall : NativeCall → Bool
  | .write _ => true
  | _ => false

/-! ## Request body stream

The request body is `new ReadableStream({ start(controller) {
res.onData((chunk, isLast) => { controller.enqueue(...); if (isLast)
controller.close(); }); } })`.  The abort callback registered on the
connection sets the `aborted` flag and touches nothing else.  The stream
controller state records the queued chunks, whether `close()` was called,
and whether `error()` was ever called. -/

/-- ReadableStream controller state for the request body. -/
structure BodyState where
  queue : List Chunk
  closed : Bool
  errored : Bool
  deriving DecidableEq, Repr

def initBody : BodyState := ⟨[], false, false⟩

/-- `controller.enqueue(new Uint8Array(chunk))`. -/
def controllerEnqueue (s : BodyState) (c : Chunk) : BodyState :=
  { s with queue := s.queue ++ [c] }

/-- `controller.close()`. -/
def controllerClose (s : BodyState) : BodyState :=
  { s with closed := true }

/-- The `res.onData` callback from the source. -/
def onData (s : BodyState) (c : Chunk) (isLast : Bool) : BodyState :=
  let s := controllerEnqueue s c
  if isLast then controllerClose s else s

/-- Per-connection state: the `aborted` flag and the body stream. -/
structure ConnState where
  aborted : Bool
  body : BodyState
  deriving DecidableEq, Repr

/-- `res.onAborted(() => (aborted = true))`: the whole abort callback. -/
def onAborted (s : ConnState) : ConnState :=
  { s with aborted := true }

/-- What a read from the body stream observes. -/
inductive ReadOutcome where
  | chunk (c : Chunk)
  | done
  /-- the read stays pending: nothing queued, stream neither closed nor
  errored. -/
  | pending
  | cancelError
  deriving DecidableEq, Repr

/-- ReadableStream read semantics on the controller state: an errored
stream rejects every read with the stored (cancellation) error; otherwise a
queued chunk is delivered, a closed empty stream reports done, and an open
empty stream leaves the read pending. -/
def readResult (s : BodyState) : ReadOutcome :=
  if s.errored then .cancelError
  else
    match s.queue with
    | c :: _ => .chunk c
    | [] => if s.closed then .done else .pending

/-- A native event on one connection while the body is being produced. -/
inductive BodyEvent where
  | data (c : Chunk) (isLast : Bool)
  | abortFires
  deriving DecidableEq, Repr

def connStep (s : ConnState) : BodyEvent → ConnState
  | .data c l => { s with body := onData s.body c l }
  | .abortFires => onAborted s

/-- Run a connection from its initial state over a native event list. -/
def runConn (evs : List BodyEvent) : ConnState :=
  evs.foldl connStep ⟨false, initBody⟩

/-! ## Server setup -/

/-- Which uWebSockets app `createServer` constructs. -/
inductive AppKind where
  | sslApp
  | appWithOptions
  | plainApp
  deriving DecidableEq, Repr

/-- The setup phase of `createServer` (source lines 71–75): with `ssl` and
no `appOptions` it throws `"SSL requires appOptions"` before any app is
created; otherwise it builds `SSLApp(appOptions)`, `App(appOptions)` or
`App()`. -/
def createServerSetup (ssl hasAppOptions : Bool) : Except String AppKind :=
  if ssl && !hasAppOptions then .error "SSL requires appOptions"
  else .ok (if ssl then .sslApp
            else if hasAppOptions then .appWithOptions
            else .plainApp)

/-! ## Claims -/

/-- Claim C10: calling `createServer` with `ssl = true` and no `appOptions`
throws `"SSL requires appOptions"` synchronously; no server app is created
(the setup yields no `AppKind`), so the handler is never installed or
invoked. -/
theorem c10_ssl_requires_app_options :
    createServerSetup true false = Except.error "SSL requires appOptions" := by
  rfl

/-- Claim C8: if the abort flag is set before the response reaches the
response-writing step, `finish` returns at its entry check without issuing
any native call — no status line, headers or body bytes are written and the
handler's response value is discarded; an error reaching `handleError`
after abort is likewise swallowed. -/
theorem c8_no_write_after_early_abort (r : ResponseV) :
    finish true r = [] ∧ handleError true = [] :=
  ⟨rfl, rfl⟩

/-- Claim C7: a body stream yielding exactly the chunks `[A, B, C]`, with
no abort, produces exactly three native calls in order: a non-final write
of `A`, a non-final write of `B`, and a final `end` with `C`. -/
theorem c7_chunk_write_order (A B C : Chunk) :
    bodyCalls [A, B, C] =
      [NativeCall.write A, NativeCall.write B, NativeCall.endWith C] := by
  rfl

/-- Claim C1 (failing witness): with no origin configured and
`trustProxy = ssl = false`, serving a first request with `host: a.example`
mutates the closure variables, and a second request with `host: b.example`
then resolves its host to `a.example` — whereas the same second request on
a fresh server resolves to `b.example`.  Origin resolution therefore does
depend on earlier requests served by the same server. -/
theorem c1_origin_caching_bug :
    ((serveOrigin false false
        (serveOrigin false false ⟨"", ""⟩ [("host", "a.example")] "1.2.3.4").2
        [("host", "b.example")] "1.2.3.4").1.2 = "a.example")
    ∧ ((serveOrigin false false ⟨"", ""⟩
        [("host", "b.example")] "1.2.3.4").1.2 = "b.example") := by
  exact ⟨rfl, rfl⟩

/-- Claim C2 (counterexample): the abort flag becomes set before any chunk
is processed, yet the writer still issues a non-final write and a final
end for the two chunks that follow — the flag is not re-checked before the
chunk writes, and the remaining chunks are written, not drained. -/
theorem c2_write_after_abort_counterexample :
    (writerStep initWriter StreamEvent.abortSignal).aborted = true
    ∧ (runWriter [StreamEvent.abortSignal,
        StreamEvent.chunk [65], StreamEvent.chunk [66]]).calls
        = [NativeCall.write [65], NativeCall.endWith [66]] :=
  ⟨rfl, rfl⟩

/-- Auxiliary: abort events change neither the held chunk nor the emitted
calls of the streaming loop — only the chunk events matter. -/
theorem writer_ignores_abort_aux :
    ∀ (evs : List StreamEvent) (s t : WriterState),
      s.lastChunk = t.lastChunk → s.calls = t.calls →
      (evs.foldl writerStep s).lastChunk =
        (((chunksOf evs).map StreamEvent.chunk).foldl writerStep t).lastChunk ∧
      (evs.foldl writerStep s).calls =
        (((chunksOf evs).map StreamEvent.chunk).foldl writerStep t).calls
  | [], _, _, h1, h2 => ⟨h1, h2⟩
  | .abortSignal :: r, s, t, h1, h2 => by
      simpa [chunksOf, writerStep] using
        writer_ignores_abort_aux r { s with aborted := true } t h1 h2
  | .chunk c :: r, s, t, h1, h2 => by
      cases hs : s.lastChunk with
      | none =>
          have ht : t.lastChunk = none := by rw [← h1, hs]
          simp only [List.foldl, chunksOf, List.map, writerStep, hs, ht]
          exact writer_ignores_abort_aux r _ _ rfl h2
      | some p =>
          have ht : t.lastChunk = some p := by rw [← h1, hs]
          simp only [List.foldl, chunksOf, List.map, writerStep, hs, ht]
          exact writer_ignores_abort_aux r _ _ rfl (by simp [h2])

/-- Auxiliary: `writerEnd` output calls depend only on the held chunk and
the calls so far. -/
theorem writerEnd_calls_congr (s t : WriterState)
    (h1 : s.lastChunk = t.lastChunk) (h2 : s.calls = t.calls) :
    (writerEnd s).calls = (writerEnd t).calls := by
  cases hs : s.lastChunk with
  | none =>
      have ht : t.lastChunk = none := by rw [← h1, hs]
      simp [writerEnd, hs, ht, h2]
  | some c =>
      have ht : t.lastChunk = some c := by rw [← h1, hs]
      simp [writerEnd, hs, ht, h2]

/-- Claim C2 (amended): the abort flag, once set during body streaming, is
never re-checked — the writer's native calls are exactly those determined
by the chunk events alone, so writes and the final end are still issued
after the flag is set. -/
theorem c2_abort_never_rechecked (evs : List StreamEvent) :
    (runWriter evs).calls = bodyCalls (chunksOf evs) := by
  have h := writer_ignores_abort_aux evs initWriter initWriter rfl rfl
  exact writerEnd_calls_congr _ _ h.1 h.2

/-- Claim C3: with trust-proxy disabled, the `x-forwarded-proto` and
`x-forwarded-host` headers have no influence on the resolved origin: two
requests whose headers agree on `host` (but may differ arbitrarily, in
particular in the forwarded headers) resolve, from the same server state
and peer address, to the same scheme and host. -/
theorem c3_forwarded_headers_ignored_without_trust
    (st : OriginState) (ssl : Bool) (hs1 hs2 : HeaderList) (ip : String)
    (hhost : jsGet hs1 "host" = jsGet hs2 "host") :
    (serveOrigin false ssl st hs1 ip).1 = (serveOrigin false ssl st hs2 ip).1 := by
  simp [serveOrigin, hhost]

/-- Claim C3 witness: the spec's own example — forwarded headers
`x-forwarded-proto: https`, `x-forwarded-host: evil.example` present versus
absent, same `host: good.example` — yields the same resolved origin. -/
theorem c3_witness :
    jsGet [("x-forwarded-proto", "https"), ("x-forwarded-host", "evil.example"),
        ("host", "good.example")] "host"
      = jsGet [("host", "good.example")] "host"
    ∧ (serveOrigin false false ⟨"", ""⟩
        [("x-forwarded-proto", "https"), ("x-forwarded-host", "evil.example"),
          ("host", "good.example")] "1.2.3.4").1
      = (serveOrigin false false ⟨"", ""⟩ [("host", "good.example")] "1.2.3.4").1 :=
  ⟨by decide, c3_forwarded_headers_ignored_without_trust _ _ _ _ _ (by decide)⟩

/-- Auxiliary: every call emitted for name `m` is a header line for `m`. -/
theorem headerNameOf_emitFor (hs : HeaderList) (m : String) :
    ∀ c ∈ emitFor hs m, headerNameOf c = m := by
  intro c hc
  unfold emitFor at hc
  split at hc
  · rw [List.mem_map] at hc
    obtain ⟨v, -, rfl⟩ := hc
    rfl
  · rw [List.mem_singleton] at hc
    subst hc
    rfl

/-- Auxiliary: filtering the lines for `m` out of `m`'s own emission keeps
everything. -/
theorem emitFor_filter_self (hs : HeaderList) (m : String) :
    (emitFor hs m).filter (fun c => headerNameOf c = m) = emitFor hs m := by
  rw [List.filter_eq_self]
  intro c hc
  simp [headerNameOf_emitFor hs m c hc]

/-- Auxiliary: the emission for `m` contains no line for a different name. -/
theorem emitFor_filter_other (hs : HeaderList) (m n : String) (h : m ≠ n) :
    (emitFor hs m).filter (fun c => headerNameOf c = n) = [] := by
  rw [List.filter_eq_nil_iff]
  intro c hc
  simp [headerNameOf_emitFor hs m c hc, h]

/-- Auxiliary: over a duplicate-free key list, the lines for `n` in the
flattened emission are exactly `n`'s own emission (or nothing). -/
theorem filter_flatMap_emitFor (hs : HeaderList) (n : String) :
    ∀ (keys : List String), keys.Nodup →
      (keys.flatMap (emitFor hs)).filter (fun c => headerNameOf c = n) =
        if n ∈ keys then emitFor hs n else []
  | [], _ => by simp
  | k :: ks, hnd => by
      obtain ⟨hk, hks⟩ := List.nodup_cons.mp hnd
      rw [List.flatMap_cons, List.filter_append,
        filter_flatMap_emitFor hs n ks hks]
      by_cases hkn : k = n
      · subst hkn
        rw [emitFor_filter_self]
        simp [hk]
      · rw [emitFor_filter_other hs k n hkn]
        have hnk : ¬n = k := fun h => hkn h.symm
        simp [List.mem_cons, hnk]

/-- Auxiliary: a name that is not among the header keys has no values. -/
theorem valuesOf_eq_nil_of_not_mem (hs : HeaderList) (name : String)
    (h : name ∉ uniqueHeaderNames hs) : valuesOf hs name = [] := by
  unfold valuesOf
  rw [List.filter_eq_nil_iff.mpr ?_, List.map_nil]
  intro p hp
  simp only [decide_eq_true_eq]
  intro hpn
  exact h (by
    rw [uniqueHeaderNames, List.mem_dedup]
    exact hpn ▸ List.mem_map_of_mem Prod.fst hp)

/-- Claim C4 (counterexample): a response header multimap holding the key
`x-foo` with the two values `a` and `b` is emitted as exactly one native
header line with the joined value `"a, b"` — not as two separate lines as
the claim requires for every multi-valued key. -/
theorem c4_joined_header_counterexample :
    emitHeaders [("x-foo", "a"), ("x-foo", "b")]
      = [NativeCall.writeHeader "x-foo" "a, b"]
    ∧ (emitHeaders [("x-foo", "a"), ("x-foo", "b")]).length ≠ 2 := by
  exact ⟨rfl, by decide⟩

/-- Claim C4 (amended): only the `set-cookie` key is emitted as one
separate native header line per value (in order); every other key — with
one or several values — is emitted as exactly one header line whose value
is the `", "`-join of its values. -/
theorem c4_per_name_emission (hs : HeaderList) (n : String) :
    ((emitHeaders hs).filter (fun c => headerNameOf c = "set-cookie")
      = (getSetCookie hs).map (fun v => NativeCall.writeHeader "set-cookie" v))
    ∧ (n ≠ "set-cookie" →
      (emitHeaders hs).filter (fun c => headerNameOf c = n)
        = if n ∈ uniqueHeaderNames hs
          then [NativeCall.writeHeader n (jsGet hs n)] else []) := by
  have hnd : (uniqueHeaderNames hs).Nodup := by
    rw [uniqueHeaderNames]; exact List.nodup_dedup _
  constructor
  · rw [emitHeaders,
      filter_flatMap_emitFor hs "set-cookie" (uniqueHeaderNames hs) hnd]
    by_cases h : "set-cookie" ∈ uniqueHeaderNames hs
    · simp [h, emitFor]
    · simp [h, getSetCookie, valuesOf_eq_nil_of_not_mem hs "set-cookie" h]
  · intro hn
    rw [emitHeaders, filter_flatMap_emitFor hs n (uniqueHeaderNames hs) hnd]
    by_cases h : n ∈ uniqueHeaderNames hs <;> simp [h, emitFor, hn]

/-- Claim C4 witness: a response with `set-cookie: a=1`, `set-cookie: b=2`
and a doubled `x-foo` key emits two separate `set-cookie` lines and a
single joined `x-foo` line. -/
theorem c4_witness :
    ((emitHeaders [("set-cookie", "a=1"), ("set-cookie", "b=2"),
        ("x-foo", "a"), ("x-foo", "b")]).filter
        (fun c => headerNameOf c = "set-cookie")
      = (getSetCookie [("set-cookie", "a=1"), ("set-cookie", "b=2"),
          ("x-foo", "a"), ("x-foo", "b")]).map
          (fun v => NativeCall.writeHeader "set-cookie" v))
    ∧ ((emitHeaders [("set-cookie", "a=1"), ("set-cookie", "b=2"),
        ("x-foo", "a"), ("x-foo", "b")]).filter
        (fun c => headerNameOf c = "x-foo")
      = if "x-foo" ∈ uniqueHeaderNames [("set-cookie", "a=1"),
            ("set-cookie", "b=2"), ("x-foo", "a"), ("x-foo", "b")]
        then [NativeCall.writeHeader "x-foo"
            (jsGet [("set-cookie", "a=1"), ("set-cookie", "b=2"),
              ("x-foo", "a"), ("x-foo", "b")] "x-foo")]
        else []) :=
  ⟨(c4_per_name_emission [("set-cookie", "a=1"), ("set-cookie", "b=2"),
      ("x-foo", "a"), ("x-foo", "b")] "x-foo").1,
    (c4_per_name_emission [("set-cookie", "a=1"), ("set-cookie", "b=2"),
      ("x-foo", "a"), ("x-foo", "b")] "x-foo").2 (by decide)⟩

/-- Auxiliary: every emitted header line is a `writeHeader` call. -/
theorem emitFor_shape (hs : HeaderList) (m : String) :
    ∀ c ∈ emitFor hs m, ∃ n v, c = NativeCall.writeHeader n v := by
  intro c hc
  unfold emitFor at hc
  split at hc
  · rw [List.mem_map] at hc
    obtain ⟨v, -, rfl⟩ := hc
    exact ⟨_, _, rfl⟩
  · rw [List.mem_singleton] at hc
    subst hc
    exact ⟨_, _, rfl⟩

/-- Auxiliary: the header-emission step contains no completion signal. -/
theorem emitHeaders_no_end (hs : HeaderList) :
    (emitHeaders hs).countP isEndCall = 0 := by
  rw [List.countP_eq_zero]
  intro c hc
  rw [emitHeaders, List.mem_flatMap] at hc
  obtain ⟨m, -, hcm⟩ := hc
  obtain ⟨n, v, rfl⟩ := emitFor_shape hs m c hcm
  simp [isEndCall]

/-- Auxiliary: the header-emission step contains no body write. -/
theorem emitHeaders_no_write (hs : HeaderList) :
    (emitHeaders hs).countP isWriteCall = 0 := by
  rw [List.countP_eq_zero]
  intro c hc
  rw [emitHeaders, List.mem_flatMap] at hc
  obtain ⟨m, -, hcm⟩ := hc
  obtain ⟨n, v, rfl⟩ := emitFor_shape hs m c hcm
  simp [isWriteCall]

/-- Claim C5 (counterexample): a response whose body stream is present but
yields zero chunks produces zero completion signals — `finish` emits only
the status line and header lines and never calls `res.end` in any form, so
the response is never completed (the claim demands exactly one `end` as
part of the header-write step). -/
theorem c5_empty_stream_counterexample :
    (finish false ⟨200, "", [], some []⟩).countP isEndCall = 0
    ∧ finish false ⟨200, "", [], some []⟩ = [NativeCall.writeStatus "200"] := by
  exact ⟨rfl, rfl⟩

/-- Claim C5 (amended): with no abort, a response with an *absent* body
issues exactly one completion signal (the `res.end()` of the header-write
cork) and zero body writes; but a response whose body stream is present
and yields zero chunks issues zero completion signals and zero body writes
— the header-write step does not signal completion in that case. -/
theorem c5_completion_signals (r : ResponseV) :
    (r.body = none →
      (finish false r).countP isEndCall = 1
      ∧ (finish false r).countP isWriteCall = 0)
    ∧ (r.body = some [] →
      (finish false r).countP isEndCall = 0
      ∧ (finish false r).countP isWriteCall = 0) := by
  constructor
  · intro hb
    simp [finish, hb, List.countP_cons, List.countP_append,
      emitHeaders_no_end, emitHeaders_no_write, isEndCall, isWriteCall]
  · intro hb
    simp [finish, hb, bodyCalls, runWriter, writerEnd, initWriter,
      List.countP_cons, List.countP_append,
      emitHeaders_no_end, emitHeaders_no_write, isEndCall, isWriteCall]

/-- Claim C5 witness: concrete instances of both halves — a body-less `200`
response gives one `end` and zero writes; a `200` response with an empty
body stream gives zero `end`s and zero writes. -/
theorem c5_witness :
    ((finish false ⟨200, "", [("content-type", "text/plain")], none⟩).countP
        isEndCall = 1
      ∧ (finish false ⟨200, "", [("content-type", "text/plain")], none⟩).countP
        isWriteCall = 0)
    ∧ ((finish false ⟨200, "OK", [], some []⟩).countP isEndCall = 0
      ∧ (finish false ⟨200, "OK", [], some []⟩).countP isWriteCall = 0) :=
  ⟨(c5_completion_signals ⟨200, "", [("content-type", "text/plain")], none⟩).1
      rfl,
    (c5_completion_signals ⟨200, "OK", [], some []⟩).2 rfl⟩

/-- Claim C6 (counterexample): the abort callback fires on a connection
whose body stream has no queued data; the aborted flag is set, yet a
pending or future read stays `pending` — it is not failed with a
cancellation error, because nothing ever errors the stream. -/
theorem c6_pending_read_counterexample :
    (onAborted ⟨false, initBody⟩).aborted = true
    ∧ readResult (onAborted ⟨false, initBody⟩).body = ReadOutcome.pending :=
  ⟨rfl, rfl⟩

/-- Auxiliary: no native event ever errors the body stream. -/
theorem connStep_preserves_unerrored :
    ∀ (evs : List BodyEvent) (s : ConnState), s.body.errored = false →
      ((evs.foldl connStep s).body.errored = false)
  | [], _, h => h
  | e :: r, s, h => by
      apply connStep_preserves_unerrored r
      cases e with
      | data c l =>
          cases l <;>
            simpa [connStep, onData, controllerEnqueue, controllerClose] using h
      | abortFires => simpa [connStep, onAborted] using h

/-- Claim C6 (amended): the abort event sets the connection's aborted flag
but leaves the request body stream completely untouched: over every native
event sequence the stream is never errored, so no pending or future read
ever fails with a cancellation error — after an abort a pending read on an
open, empty stream remains pending instead of failing. -/
theorem c6_abort_never_errors_stream (evs : List BodyEvent) :
    (runConn evs).body.errored = false
    ∧ readResult (runConn evs).body ≠ ReadOutcome.cancelError
    ∧ (∀ s : ConnState, (onAborted s).body = s.body) := by
  have h : (runConn evs).body.errored = false :=
    connStep_preserves_unerrored evs ⟨false, initBody⟩ rfl
  refine ⟨h, ?_, fun s => rfl⟩
  cases hq : (runConn evs).body.queue with
  | nil =>
      by_cases hc : (runConn evs).body.closed <;>
        simp [readResult, h, hq, hc]
  | cons a t => simp [readResult, h, hq]

/-- Claim C9: when the handler throws synchronously or its promise
rejects: with the abort flag clear, `handleError` writes exactly one
generic `500 Internal Server Error` response consisting of the status line
and a data-less `res.end()` (no body content, no error details); with the
abort flag already set, the error is swallowed and no native call is made. -/
theorem c9_generic_500_on_handler_error (o : HandlerOutcome)
    (h : o = HandlerOutcome.threwSync ∨ o = HandlerOutcome.rejected) :
    dispatch false o = [NativeCall.writeStatus "500 Internal Server Error",
        NativeCall.endResponse]
    ∧ dispatch true o = [] := by
  rcases h with rfl | rfl <;> exact ⟨rfl, rfl⟩

/-- Claim C9 witness: the synchronous-throw outcome, before and after
abort. -/
theorem c9_witness :
    dispatch false HandlerOutcome.threwSync
      = [NativeCall.writeStatus "500 Internal Server Error",
        NativeCall.endResponse]
    ∧ dispatch true HandlerOutcome.threwSync = [] :=
  c9_generic_500_on_handler_error HandlerOutcome.threwSync (Or.inl rfl)
